import Mathlib

/-!
Shallow embedding of `src/static/app.js` (the upload/progress UI controller).

The DOM elements touched by the script are modelled as fields of `UIState`:
`statusText` is `status-text`'s text, `progressWidth` is the numeric width (in
percent) written to `progress-fill`, `rowCount` and `outputPath` are the texts
of `row-count` and `output-path`, `downloadDisabled` and `runDisabled` are the
`disabled` flags of the two buttons, `downloadUrl` is the module-scoped
variable of the same name, `timerActive` models `progressTimer` being non-null,
and `animProgress` models the `progress` variable captured by the
`startProgress` closure.  Numbers are rationals; `Math.random() * 8` is
modelled as an arbitrary rational increment `r` with `0 ≤ r < 8` supplied to
the tick.  A JSON response body is modelled as `Option Body` (`none` means
`JSON.parse` throws), and the completion handler returns `Except String
UIState` so that an exception escaping the callback is visible as
`Except.error`.
-/

namespace LOA

structure UIState where
  statusText : String
  progressWidth : ℚ
  rowCount : String
  outputPath : String
  downloadDisabled : Bool
  runDisabled : Bool
  downloadUrl : Option String
  timerActive : Bool
  animProgress : ℚ
  deriving DecidableEq

/-- `setProgress` from app.js: `progressFill.style.width` is set to
`Math.min(100, Math.max(0, value))` percent. -/
def clampPct (v : ℚ) : ℚ := min 100 (max 0 v)

def setProgress (s : UIState) (v : ℚ) : UIState :=
  { s with progressWidth := clampPct v }

/-- `resetOutput` from app.js. -/
def resetOutput (s : UIState) : UIState :=
  { s with rowCount := "-", outputPath := "-", downloadDisabled := true,
           downloadUrl := none }

/-- `startProgress` from app.js: `progress = 5; setProgress(progress);`
status text `"Uploading..."`, then the interval timer is installed. -/
def startProgress (s : UIState) : UIState :=
  { setProgress s 5 with statusText := "Uploading...", timerActive := true,
                         animProgress := 5 }

/-- `stopProgress` from app.js: clears the interval if it is set. -/
def stopProgress (s : UIState) : UIState :=
  { s with timerActive := false }

/-- One interval tick body: `progress = Math.min(90, progress + Math.random() * 8)`;
`r` stands for the concrete value of `Math.random() * 8`. -/
def simTick (p r : ℚ) : ℚ := min 90 (p + r)

/-- The state effect of one tick of the `startProgress` interval. -/
def tickUpdate (s : UIState) (r : ℚ) : UIState :=
  let p := simTick s.animProgress r
  { setProgress s p with animProgress := p, statusText := "Processing..." }

/-- The `xhr.upload.onprogress` handler, in the `event.lengthComputable`
branch: `setProgress(Math.max(5, (event.loaded / event.total) * 40))`. -/
def uploadUpdate (s : UIState) (loaded total : ℚ) : UIState :=
  { setProgress s (max 5 (loaded / total * 40)) with
      statusText := "Uploading..." }

/-- A parsed JSON response body.  Each field is `none` when the corresponding
JSON field is absent or `null`/`undefined`; `row_count` holds the rendered
text of the value. -/
structure Body where
  status : Option String
  message : Option String
  row_count : Option String
  output_path : Option String
  download_url : Option String
  deriving DecidableEq

/-- A terminal XHR response: HTTP status plus the result of parsing
`responseText` (`none` when `JSON.parse` would throw). -/
structure HttpResponse where
  httpStatus : Nat
  body : Option Body
  deriving DecidableEq

/-- JavaScript `m || d` for an optional string `m`: both a missing field and
an empty string are falsy, so they fall back to `d`. -/
def jsOrElse (m : Option String) (d : String) : String :=
  match m with
  | some v => if v = "" then d else v
  | none => d

/-- The `xhr.onreadystatechange` handler at `readyState === DONE`, from
app.js lines 85-118.  `Except.error` models an exception escaping the
callback (the bare `JSON.parse` on the HTTP-200 path). -/
def onDone (s0 : UIState) (resp : HttpResponse) : Except String UIState :=
  let s := { stopProgress s0 with runDisabled := false }
  if resp.httpStatus ≠ 200 then
    let msg := match resp.body with
      | some b => jsOrElse b.message "Processing failed."
      | none => "Processing failed."
    Except.ok (setProgress { s with statusText := "Error.", outputPath := msg } 0)
  else
    match resp.body with
    | none => Except.error "SyntaxError"
    | some b =>
      if b.status ≠ some "ok" then
        Except.ok (setProgress
          { s with statusText := "Error.",
                   outputPath := jsOrElse b.message "Processing failed." } 0)
      else
        Except.ok { setProgress s 100 with
            statusText := "Completed.",
            rowCount := b.row_count.getD "-",
            outputPath := b.output_path.getD "-",
            downloadUrl := b.download_url,
            downloadDisabled := false }

/-- The form `submit` listener.  Returns the new state and whether a request
was issued (`xhr.send` reached).  The two booleans model
`salesInput.files.length` / `peopleInput.files.length` being non-zero. -/
def onSubmit (s : UIState) (salesSelected peopleSelected : Bool) :
    UIState × Bool :=
  if !salesSelected || !peopleSelected then
    ({ s with statusText := "Please select both files." }, false)
  else
    (startProgress { resetOutput s with runDisabled := true }, true)

/-- Events that may fire while the request is outstanding: an animation tick
(with the value of `Math.random() * 8`) or a length-computable upload
progress event. -/
inductive MidEvent where
  | tick (r : ℚ)
  | upload (loaded total : ℚ)

def applyMid (s : UIState) : MidEvent → UIState
  | .tick r => tickUpdate s r
  | .upload loaded total => uploadUpdate s loaded total

def runMids (s : UIState) (es : List MidEvent) : UIState := es.foldl applyMid s

/-- A concrete page state, as rendered before any interaction. -/
def initState : UIState :=
  { statusText := "", progressWidth := 0, rowCount := "-", outputPath := "-",
    downloadDisabled := true, runDisabled := false, downloadUrl := none,
    timerActive := false, animProgress := 0 }

/-- C3: a submission with either file input empty issues no request, sets the
status text to the prompt "Please select both files.", and leaves everything
else — in particular the submit control's disabled flag and the
timer/progress state — unchanged. -/
theorem submit_missing_file_no_request (s : UIState)
    (sales people : Bool) (h : sales = false ∨ people = false) :
    (onSubmit s sales people).2 = false ∧
    (onSubmit s sales people).1 =
      { s with statusText := "Please select both files." } := by
  rcases h with h | h <;> subst h
  · cases people <;> simp [onSubmit]
  · cases sales <;> simp [onSubmit]

/-- Witness for C3 at a concrete state with the sales file missing. -/
theorem submit_missing_file_no_request_witness :
    (onSubmit initState false true).2 = false ∧
    (onSubmit initState false true).1 =
      { initState with statusText := "Please select both files." } :=
  submit_missing_file_no_request initState false true (Or.inl rfl)

lemma clampPct_eq_self {v : ℚ} (h0 : 0 ≤ v) (h1 : v ≤ 100) : clampPct v = v := by
  unfold clampPct
  rw [max_eq_right h0, min_eq_right h1]

lemma clampPct_zero : clampPct 0 = 0 :=
  clampPct_eq_self le_rfl (by norm_num)

lemma clampPct_hundred : clampPct (100 : ℚ) = 100 :=
  clampPct_eq_self (by norm_num) le_rfl

/-- C4: a terminal response with HTTP status ≠ 200 resets the displayed
progress to 0, re-enables the submit control, sets the status text to
"Error.", and shows the body's `message` when the body parses and carries a
(non-empty, hence truthy) message, otherwise the generic "Processing failed.";
no exception escapes. -/
theorem non200_failure_display (s : UIState) (resp : HttpResponse)
    (h : resp.httpStatus ≠ 200) :
    ∃ s', onDone s resp = Except.ok s' ∧
      s'.progressWidth = 0 ∧ s'.runDisabled = false ∧
      s'.statusText = "Error." ∧
      s'.outputPath = (match resp.body with
        | some b => match b.message with
          | some m => if m = "" then "Processing failed." else m
          | none => "Processing failed."
        | none => "Processing failed.") := by
  unfold onDone
  rw [if_pos h]
  refine ⟨_, rfl, clampPct_zero, rfl, rfl, ?_⟩
  cases resp.body with
  | none => rfl
  | some b => rfl

/-- Witness for C4: HTTP 500 with body `{"message":"disk full"}`. -/
theorem non200_failure_display_witness :
    ∃ s', onDone initState
        { httpStatus := 500,
          body := some { status := none, message := some "disk full",
                         row_count := none, output_path := none,
                         download_url := none } } = Except.ok s' ∧
      s'.progressWidth = 0 ∧ s'.runDisabled = false ∧
      s'.statusText = "Error." ∧
      s'.outputPath = (match (some { status := none, message := some "disk full",
                                     row_count := none, output_path := none,
                                     download_url := none } : Option Body) with
        | some b => match b.message with
          | some m => if m = "" then "Processing failed." else m
          | none => "Processing failed."
        | none => "Processing failed.") :=
  non200_failure_display initState
    { httpStatus := 500,
      body := some { status := none, message := some "disk full",
                     row_count := none, output_path := none,
                     download_url := none } } (by decide)

/-- C5: HTTP 200 with a parseable body whose `status` is not "ok" shows the
body's `message` when present and non-empty, otherwise the fixed fallback
"Processing failed.", and resets the displayed progress to 0. -/
theorem http200_app_failure_display (s : UIState) (resp : HttpResponse)
    (b : Body) (h1 : resp.httpStatus = 200) (h2 : resp.body = some b)
    (h3 : b.status ≠ some "ok") :
    ∃ s', onDone s resp = Except.ok s' ∧
      s'.outputPath = (match b.message with
        | some m => if m = "" then "Processing failed." else m
        | none => "Processing failed.") ∧
      s'.progressWidth = 0 ∧ s'.statusText = "Error." := by
  unfold onDone
  rw [if_neg (by simp [h1]), h2]
  simp only []
  rw [if_pos h3]
  exact ⟨_, rfl, rfl, clampPct_zero, rfl⟩

/-- Witness for C5: HTTP 200 with body `{"status":"error"}` (no message)
shows the fixed fallback. -/
theorem http200_app_failure_display_witness :
    ∃ s', onDone initState
        { httpStatus := 200,
          body := some { status := some "error", message := none,
                         row_count := none, output_path := none,
                         download_url := none } } = Except.ok s' ∧
      s'.outputPath = (match (none : Option String) with
        | some m => if m = "" then "Processing failed." else m
        | none => "Processing failed.") ∧
      s'.progressWidth = 0 ∧ s'.statusText = "Error." :=
  http200_app_failure_display initState
    { httpStatus := 200,
      body := some { status := some "error", message := none,
                     row_count := none, output_path := none,
                     download_url := none } }
    { status := some "error", message := none, row_count := none,
      output_path := none, download_url := none } rfl rfl (by decide)

/-- C6: a successful response (HTTP 200, body `status` = "ok") sets the
displayed progress to 100, the status text to "Completed.", shows `row_count`
and `output_path` with "-" as fallback when absent or null, stores
`download_url` as the download reference, and enables the download control. -/
theorem success_display (s : UIState) (resp : HttpResponse) (b : Body)
    (h1 : resp.httpStatus = 200) (h2 : resp.body = some b)
    (h3 : b.status = some "ok") :
    ∃ s', onDone s resp = Except.ok s' ∧
      s'.progressWidth = 100 ∧ s'.statusText = "Completed." ∧
      s'.rowCount = b.row_count.getD "-" ∧
      s'.outputPath = b.output_path.getD "-" ∧
      s'.downloadUrl = b.download_url ∧ s'.downloadDisabled = false := by
  unfold onDone
  rw [if_neg (by simp [h1]), h2]
  simp only []
  rw [if_neg (by simp [h3])]
  exact ⟨_, rfl, clampPct_hundred, rfl, rfl, rfl, rfl, rfl⟩

/-- Witness for C6: the spec's success scenario, HTTP 200 with
`{"status":"ok","row_count":42,"output_path":"/out/result.csv",
"download_url":"/download/result.csv"}`. -/
theorem success_display_witness :
    ∃ s', onDone initState
        { httpStatus := 200,
          body := some { status := some "ok", message := none,
                         row_count := some "42",
                         output_path := some "/out/result.csv",
                         download_url := some "/download/result.csv" } } =
        Except.ok s' ∧
      s'.progressWidth = 100 ∧ s'.statusText = "Completed." ∧
      s'.rowCount = (some "42").getD "-" ∧
      s'.outputPath = (some "/out/result.csv").getD "-" ∧
      s'.downloadUrl = some "/download/result.csv" ∧
      s'.downloadDisabled = false :=
  success_display initState
    { httpStatus := 200,
      body := some { status := some "ok", message := none,
                     row_count := some "42",
                     output_path := some "/out/result.csv",
                     download_url := some "/download/result.csv" } }
    { status := some "ok", message := none, row_count := some "42",
      output_path := some "/out/result.csv",
      download_url := some "/download/result.csv" } rfl rfl rfl

/-- C1 counterexample: an HTTP 200 response whose body is not parseable.  The
bare `JSON.parse(xhr.responseText)` on the 200 path is outside any
`try`/`catch`, so the completion callback raises instead of returning
normally — no state (and in particular no "Processing failed." message) is
ever produced, refuting the claim at this input. -/
theorem malformed_200_counterexample :
    ¬ ∃ s', onDone initState { httpStatus := 200, body := none } =
        Except.ok s' := by
  rintro ⟨s', h⟩
  exact Except.noConfusion
    ((rfl : onDone initState { httpStatus := 200, body := none } =
        Except.error "SyntaxError").symm.trans h)

/-- C1 amended: for a terminal response whose body is not parseable, the
controller shows the generic "Processing failed." message without crashing
only when the HTTP status is not 200; when the HTTP status is 200 the
`JSON.parse` exception escapes the completion callback. -/
theorem malformed_body_handling (s : UIState) (resp : HttpResponse)
    (hb : resp.body = none) :
    (resp.httpStatus ≠ 200 →
      ∃ s', onDone s resp = Except.ok s' ∧
        s'.outputPath = "Processing failed." ∧ s'.statusText = "Error.") ∧
    (resp.httpStatus = 200 →
      onDone s resp = Except.error "SyntaxError") := by
  constructor
  · intro h
    unfold onDone
    rw [if_pos h, hb]
    exact ⟨_, rfl, rfl, rfl⟩
  · intro h
    unfold onDone
    rw [if_neg (by simp [h]), hb]

/-- Witness for the amended C1, at HTTP status 500 with an unparseable
body. -/
theorem malformed_body_handling_witness :
    ((500 : Nat) ≠ 200 →
      ∃ s', onDone initState { httpStatus := 500, body := none } =
          Except.ok s' ∧
        s'.outputPath = "Processing failed." ∧ s'.statusText = "Error.") ∧
    ((500 : Nat) = 200 →
      onDone initState { httpStatus := 500, body := none } =
        Except.error "SyntaxError") :=
  malformed_body_handling initState { httpStatus := 500, body := none } rfl

/-- A successful body carrying no `download_url` field. -/
def okNoUrlBody : Body :=
  { status := some "ok", message := none, row_count := none,
    output_path := none, download_url := none }

/-- C2 counterexample: on a successful response without `download_url`, the
handler still runs `downloadButton.disabled = false`, so the download control
is enabled while no download reference is present — the claimed
"enabled iff download_url present" equivalence fails at this input. -/
theorem download_enabled_iff_url_counterexample :
    ∃ s', onDone initState { httpStatus := 200, body := some okNoUrlBody } =
        Except.ok s' ∧
      ¬ (s'.downloadDisabled = false ↔ okNoUrlBody.download_url.isSome = true) := by
  refine ⟨_, rfl, ?_⟩
  decide

/-- C2 amended: for every successful response (HTTP 200, body status "ok"),
the final displayed progress equals 100 and the submit control is enabled,
and the download control is enabled unconditionally — whether or not
`download_url` is present — while the stored download reference equals the
body's `download_url` field (possibly absent). -/
theorem success_controls (s : UIState) (resp : HttpResponse) (b : Body)
    (h1 : resp.httpStatus = 200) (h2 : resp.body = some b)
    (h3 : b.status = some "ok") :
    ∃ s', onDone s resp = Except.ok s' ∧
      s'.progressWidth = 100 ∧ s'.runDisabled = false ∧
      s'.downloadDisabled = false ∧ s'.downloadUrl = b.download_url := by
  unfold onDone
  rw [if_neg (by simp [h1]), h2]
  simp only []
  rw [if_neg (by simp [h3])]
  exact ⟨_, rfl, clampPct_hundred, rfl, rfl, rfl⟩

/-- Witness for the amended C2 at a concrete successful response. -/
theorem success_controls_witness :
    ∃ s', onDone initState
        { httpStatus := 200,
          body := some { status := some "ok", message := none,
                         row_count := some "7", output_path := some "/o",
                         download_url := some "/d" } } = Except.ok s' ∧
      s'.progressWidth = 100 ∧ s'.runDisabled = false ∧
      s'.downloadDisabled = false ∧ s'.downloadUrl = some "/d" :=
  success_controls initState
    { httpStatus := 200,
      body := some { status := some "ok", message := none,
                     row_count := some "7", output_path := some "/o",
                     download_url := some "/d" } }
    { status := some "ok", message := none, row_count := some "7",
      output_path := some "/o", download_url := some "/d" } rfl rfl rfl

/-- C7: a length-computable upload-progress event sets the displayed progress
to max(5, (loaded/total) · 40); at loaded/total = 1/2 this is exactly 20, and
the value is always in [5, 40]. -/
theorem upload_progress_display (s : UIState) (loaded total : ℚ)
    (h0 : 0 ≤ loaded) (h1 : loaded ≤ total) (h2 : 0 < total) :
    (uploadUpdate s loaded total).progressWidth =
      max 5 (loaded / total * 40) ∧
    5 ≤ (uploadUpdate s loaded total).progressWidth ∧
    (uploadUpdate s loaded total).progressWidth ≤ 40 ∧
    (loaded / total = 1 / 2 →
      (uploadUpdate s loaded total).progressWidth = 20) := by
  have hdiv : loaded / total ≤ 1 := (div_le_one h2).mpr h1
  have hx : loaded / total * 40 ≤ 40 := by
    have := mul_le_mul_of_nonneg_right hdiv (by norm_num : (0:ℚ) ≤ 40)
    linarith
  have hmax5 : (5:ℚ) ≤ max 5 (loaded / total * 40) := le_max_left _ _
  have hmax40 : max 5 (loaded / total * 40) ≤ 40 :=
    max_le (by norm_num) hx
  have hpw : (uploadUpdate s loaded total).progressWidth =
      max 5 (loaded / total * 40) := by
    show clampPct (max 5 (loaded / total * 40)) = _
    exact clampPct_eq_self (le_trans (by norm_num) hmax5)
      (le_trans hmax40 (by norm_num))
  refine ⟨hpw, ?_, ?_, ?_⟩
  · rw [hpw]; exact hmax5
  · rw [hpw]; exact hmax40
  · intro hh
    rw [hpw, hh]
    rw [show (1:ℚ) / 2 * 40 = 20 by norm_num]
    exact max_eq_right (by norm_num)

/-- Witness for C7 at loaded = 1, total = 2 (a 50% upload). -/
theorem upload_progress_display_witness :
    ((uploadUpdate initState 1 2).progressWidth =
      max 5 ((1:ℚ) / 2 * 40) ∧
    5 ≤ (uploadUpdate initState 1 2).progressWidth ∧
    (uploadUpdate initState 1 2).progressWidth ≤ 40 ∧
    ((1:ℚ) / 2 = 1 / 2 →
      (uploadUpdate initState 1 2).progressWidth = 20)) :=
  upload_progress_display initState 1 2 (by norm_num) (by norm_num)
    (by norm_num)

/-- The internal `progress` value after a run of interval ticks whose
`Math.random() * 8` draws are the entries of `rs`, starting from `p`. -/
def simRun (p : ℚ) (rs : List ℚ) : ℚ := rs.foldl simTick p

lemma simRun_bounds (rs : List ℚ) (p : ℚ) (h5 : 5 ≤ p) (h90 : p ≤ 90)
    (hr : ∀ r ∈ rs, 0 ≤ r) :
    5 ≤ simRun p rs ∧ simRun p rs ≤ 90 := by
  induction rs generalizing p with
  | nil => exact ⟨h5, h90⟩
  | cons a as ih =>
    have ha : 0 ≤ a := hr a (List.mem_cons_self a as)
    have h1 : 5 ≤ simTick p a := le_min (by norm_num) (by linarith)
    have h2 : simTick p a ≤ 90 := min_le_left _ _
    exact ih (simTick p a) h1 h2 (fun r hrr => hr r (List.mem_cons_of_mem a hrr))

/-- C8: the simulated animation starts at 5; each tick applies
min(90, previous + r) with r the draw of Math.random() · 8 in [0,8); the
internal value is non-decreasing from tick to tick and stays in [5, 90]; and
every value a tick writes to the display goes through the [0,100] clamp of
`setProgress`. -/
theorem simulated_progress_invariant (rs : List ℚ) (r : ℚ)
    (hr : ∀ x ∈ rs, 0 ≤ x ∧ x < 8) (hr0 : 0 ≤ r) (hr8 : r < 8) :
    simRun 5 [] = 5 ∧
    simRun 5 (rs ++ [r]) = min 90 (simRun 5 rs + r) ∧
    simRun 5 rs ≤ simRun 5 (rs ++ [r]) ∧
    5 ≤ simRun 5 rs ∧ simRun 5 rs ≤ 90 ∧
    (∀ s : UIState, 0 ≤ (tickUpdate s r).progressWidth ∧
      (tickUpdate s r).progressWidth ≤ 100) := by
  obtain ⟨hlo, hhi⟩ := simRun_bounds rs 5 le_rfl (by norm_num)
    (fun x hx => (hr x hx).1)
  have happ : simRun 5 (rs ++ [r]) = min 90 (simRun 5 rs + r) := by
    show (rs ++ [r]).foldl simTick 5 = _
    rw [List.foldl_append]
    rfl
  refine ⟨rfl, happ, ?_, hlo, hhi, ?_⟩
  · rw [happ]
    exact le_min hhi (by linarith)
  · intro s
    constructor
    · exact le_min (by norm_num) (le_max_left _ _)
    · exact min_le_left _ _

/-- Witness for C8 with draws [3, 7] followed by the draw 4. -/
theorem simulated_progress_invariant_witness :
    simRun 5 [] = 5 ∧
    simRun 5 ([3, 7] ++ [4]) = min 90 (simRun 5 [3, 7] + 4) ∧
    simRun 5 [3, 7] ≤ simRun 5 ([3, 7] ++ [4]) ∧
    5 ≤ simRun 5 [3, 7] ∧ simRun 5 [3, 7] ≤ 90 ∧
    (∀ s : UIState, 0 ≤ (tickUpdate s 4).progressWidth ∧
      (tickUpdate s 4).progressWidth ≤ 100) :=
  simulated_progress_invariant [3, 7] 4
    (by
      intro x hx
      simp only [List.mem_cons, List.not_mem_nil, or_false] at hx
      rcases hx with h | h <;> subst h <;> exact ⟨by norm_num, by norm_num⟩)
    (by norm_num) (by norm_num)

/-- C9: a submission attempt (both files selected, so validation passes)
clears the previous result state before issuing the request: row count and
output path are reset to "-", the stored download reference is nulled, and
the download control is disabled. -/
theorem submit_clears_result (s : UIState) :
    (onSubmit s true true).1.rowCount = "-" ∧
    (onSubmit s true true).1.outputPath = "-" ∧
    (onSubmit s true true).1.downloadUrl = none ∧
    (onSubmit s true true).1.downloadDisabled = true :=
  ⟨rfl, rfl, rfl, rfl⟩

lemma applyMid_preserves (s : UIState) (e : MidEvent) :
    (applyMid s e).rowCount = s.rowCount ∧
    (applyMid s e).downloadDisabled = s.downloadDisabled ∧
    (applyMid s e).downloadUrl = s.downloadUrl := by
  cases e <;> exact ⟨rfl, rfl, rfl⟩

lemma runMids_preserves (es : List MidEvent) (s : UIState) :
    (runMids s es).rowCount = s.rowCount ∧
    (runMids s es).downloadDisabled = s.downloadDisabled ∧
    (runMids s es).downloadUrl = s.downloadUrl := by
  induction es generalizing s with
  | nil => exact ⟨rfl, rfl, rfl⟩
  | cons e es ih =>
    obtain ⟨a1, a2, a3⟩ := applyMid_preserves s e
    obtain ⟨b1, b2, b3⟩ := ih (applyMid s e)
    exact ⟨b1.trans a1, b2.trans a2, b3.trans a3⟩

/-- C10: over a whole submission (validated submit, then any run of tick and
upload-progress events, then a terminal failure response — HTTP ≠ 200, or
HTTP 200 with body status ≠ "ok"), the failure message is written to the
`outputPath` field, the very field that shows `output_path` on success; the
row-count display is still "-" and the download control is still disabled
(with no stored download reference). -/
theorem failure_message_location (s : UIState) (es : List MidEvent)
    (resp : HttpResponse)
    (hfail : resp.httpStatus ≠ 200 ∨
      (resp.httpStatus = 200 ∧ ∃ b, resp.body = some b ∧ b.status ≠ some "ok")) :
    ∃ s', onDone (runMids (onSubmit s true true).1 es) resp = Except.ok s' ∧
      s'.outputPath = (match resp.body with
        | some b => match b.message with
          | some m => if m = "" then "Processing failed." else m
          | none => "Processing failed."
        | none => "Processing failed.") ∧
      s'.rowCount = "-" ∧ s'.downloadDisabled = true ∧
      s'.downloadUrl = none := by
  obtain ⟨p1, p2, p3⟩ := runMids_preserves es (onSubmit s true true).1
  have q1 : (runMids (onSubmit s true true).1 es).rowCount = "-" := p1.trans rfl
  have q2 : (runMids (onSubmit s true true).1 es).downloadDisabled = true :=
    p2.trans rfl
  have q3 : (runMids (onSubmit s true true).1 es).downloadUrl = none :=
    p3.trans rfl
  rcases hfail with h | ⟨h200, b, hb, hstatus⟩
  · unfold onDone
    rw [if_pos h]
    refine ⟨_, rfl, ?_, q1, q2, q3⟩
    cases resp.body <;> rfl
  · unfold onDone
    rw [if_neg (by simp [h200]), hb]
    simp only []
    rw [if_pos hstatus]
    exact ⟨_, rfl, rfl, q1, q2, q3⟩

/-- Witness for C10: no mid-flight events, terminal HTTP 500 with body
`{"message":"disk full"}`. -/
theorem failure_message_location_witness :
    ∃ s', onDone (runMids (onSubmit initState true true).1 [])
        { httpStatus := 500,
          body := some { status := none, message := some "disk full",
                         row_count := none, output_path := none,
                         download_url := none } } = Except.ok s' ∧
      s'.outputPath = (match (some { status := none,
                                     message := some "disk full",
                                     row_count := none, output_path := none,
                                     download_url := none } : Option Body) with
        | some b => match b.message with
          | some m => if m = "" then "Processing failed." else m
          | none => "Processing failed."
        | none => "Processing failed.") ∧
      s'.rowCount = "-" ∧ s'.downloadDisabled = true ∧
      s'.downloadUrl = none :=
  failure_message_location initState []
    { httpStatus := 500,
      body := some { status := none, message := some "disk full",
                     row_count := none, output_path := none,
                     download_url := none } }
    (Or.inl (by decide))

end LOA
